import Mathlib

/-!
Verification of the Modal / Alert / Button / Card component library.

Shallow embedding of the repository's TypeScript source:
* `Modal.tsx` — body scroll lock (module-level counter + saved overflow
  style), focusable-element computation, keyboard focus trap, backdrop
  click handling, initial focus on open and focus restoration on close,
  and the compound sub-components that require a Modal context.
* `Alert.tsx` — dismissal state machine (`isVisible` / `isExiting` state,
  guarded `handleDismiss`, delayed removal timer).
* `Button.tsx` — loading / disabled rendering.
* `Card.tsx` — interactive (button) vs plain (div) rendering and the
  context-free Card sub-components.
* `animations.ts` — reduced-motion detection and transition presets.

DOM elements are identified by numeric ids; element attributes relevant
to the focusability filter are carried explicitly.  JavaScript numbers
used as counters are modelled as `Int`; CSS time values as `ℚ` seconds.
-/

namespace DemoUI

/-! ## Body scroll lock (`Modal.tsx`, module level)

```js
let scrollLockCounter = 0
let originalBodyStyle: string | null = null
const lockBodyScroll = () => { ... }
const unlockBodyScroll = () => { ... }
```

The mutable module state is a record threaded through the two
operations.  `bodyOverflow` is `document.body.style.overflow`, where the
empty string means the property is unset (so `removeProperty('overflow')`
is modelled as setting it to `""`). -/

structure ScrollState where
  scrollLockCounter : Int
  originalBodyStyle : Option String
  bodyOverflow : String
deriving DecidableEq, Repr

/-- Module initial state: counter `0`, saved style `null`, and whatever
overflow value `v` the host page's body carries. -/
def initialScrollState (v : String) : ScrollState :=
  { scrollLockCounter := 0, originalBodyStyle := none, bodyOverflow := v }

/-- `lockBodyScroll`: when the counter is zero, save the current body
overflow and set it to `"hidden"`; always increment the counter. -/
def lockBodyScroll (s : ScrollState) : ScrollState :=
  let s :=
    if s.scrollLockCounter = 0 then
      { s with originalBodyStyle := some s.bodyOverflow, bodyOverflow := "hidden" }
    else s
  { s with scrollLockCounter := s.scrollLockCounter + 1 }

/-- `unlockBodyScroll`: decrement the counter; when it reaches zero,
restore the saved overflow (clearing the saved value), or remove the
property if nothing was saved. -/
def unlockBodyScroll (s : ScrollState) : ScrollState :=
  let s := { s with scrollLockCounter := s.scrollLockCounter - 1 }
  if s.scrollLockCounter = 0 then
    match s.originalBodyStyle with
    | some o => { s with bodyOverflow := o, originalBodyStyle := none }
    | none => { s with bodyOverflow := "" }
  else s

/-- One call to either scroll-lock operation. -/
inductive ScrollOp where
  | lock
  | unlock
deriving DecidableEq, Repr

def applyScrollOp (s : ScrollState) : ScrollOp → ScrollState
  | ScrollOp.lock => lockBodyScroll s
  | ScrollOp.unlock => unlockBodyScroll s

def applyScrollOps (ops : List ScrollOp) (s : ScrollState) : ScrollState :=
  ops.foldl applyScrollOp s

/-- A call sequence produced by opening modals and closing them in some
order: starting from `n` currently-open modals, every `unlock` is
preceded by a matching `lock` (an unlock never fires with zero modals
open). -/
def wellFormedFrom (n : Int) : List ScrollOp → Bool
  | [] => true
  | ScrollOp.lock :: rest => wellFormedFrom (n + 1) rest
  | ScrollOp.unlock :: rest => decide (0 < n) && wellFormedFrom (n - 1) rest

/-- Reachability invariant for the scroll-lock state, for a page whose
pre-lock body overflow is `v`. -/
def ScrollInv (v : String) (s : ScrollState) : Prop :=
  0 ≤ s.scrollLockCounter ∧
    (0 < s.scrollLockCounter →
      s.bodyOverflow = "hidden" ∧ s.originalBodyStyle = some v) ∧
    (s.scrollLockCounter = 0 →
      s.bodyOverflow = v ∧ s.originalBodyStyle = none)

theorem lockBodyScroll_zero (o : Option String) (b : String) :
    lockBodyScroll ⟨0, o, b⟩ = ⟨1, some b, "hidden"⟩ := rfl

theorem lockBodyScroll_ne_zero {c : Int} (h : ¬ c = 0) (o : Option String) (b : String) :
    lockBodyScroll ⟨c, o, b⟩ = ⟨c + 1, o, b⟩ := by
  simp [lockBodyScroll, h]

theorem unlockBodyScroll_one_some (x b : String) :
    unlockBodyScroll ⟨1, some x, b⟩ = ⟨0, none, x⟩ := rfl

theorem unlockBodyScroll_one_none (b : String) :
    unlockBodyScroll ⟨1, none, b⟩ = ⟨0, none, ""⟩ := rfl

theorem unlockBodyScroll_ne_one {c : Int} (h : ¬ c - 1 = 0) (o : Option String) (b : String) :
    unlockBodyScroll ⟨c, o, b⟩ = ⟨c - 1, o, b⟩ := by
  simp [unlockBodyScroll, h]

theorem lockBodyScroll_counter (s : ScrollState) :
    (lockBodyScroll s).scrollLockCounter = s.scrollLockCounter + 1 := by
  obtain ⟨c, o, b⟩ := s
  by_cases h : c = 0
  · subst h; rw [lockBodyScroll_zero]; exact rfl
  · rw [lockBodyScroll_ne_zero h]

theorem unlockBodyScroll_counter (s : ScrollState) :
    (unlockBodyScroll s).scrollLockCounter = s.scrollLockCounter - 1 := by
  obtain ⟨c, o, b⟩ := s
  by_cases h : c - 1 = 0
  · have hc : c = 1 := by omega
    subst hc
    cases o with
    | none => rw [unlockBodyScroll_one_none]; exact rfl
    | some x => rw [unlockBodyScroll_one_some]; exact rfl
  · rw [unlockBodyScroll_ne_one h]

theorem scrollInv_lock {v : String} {s : ScrollState} (hs : ScrollInv v s) :
    ScrollInv v (lockBodyScroll s) := by
  obtain ⟨c, o, b⟩ := s
  unfold ScrollInv at hs ⊢
  dsimp only at hs
  obtain ⟨hnn, hpos, hzero⟩ := hs
  by_cases h : c = 0
  · subst h
    obtain ⟨hb, ho⟩ := hzero rfl
    subst hb
    subst ho
    rw [lockBodyScroll_zero]
    dsimp only
    refine ⟨by norm_num, fun _ => ⟨rfl, rfl⟩, fun hc => by norm_num at hc⟩
  · have hp : (0 : Int) < c := lt_of_le_of_ne hnn (Ne.symm h)
    obtain ⟨hb, ho⟩ := hpos hp
    rw [lockBodyScroll_ne_zero h]
    dsimp only
    refine ⟨by omega, fun _ => ⟨hb, ho⟩, fun hc => absurd hc (by omega)⟩

theorem scrollInv_unlock {v : String} {s : ScrollState} (hs : ScrollInv v s)
    (hpos : 0 < s.scrollLockCounter) : ScrollInv v (unlockBodyScroll s) := by
  obtain ⟨c, o, b⟩ := s
  unfold ScrollInv at hs ⊢
  dsimp only at hs hpos
  obtain ⟨hnn, hp, hzero⟩ := hs
  obtain ⟨hb, ho⟩ := hp hpos
  subst hb
  subst ho
  by_cases h : c - 1 = 0
  · have hc : c = 1 := by omega
    subst hc
    rw [unlockBodyScroll_one_some]
    dsimp only
    refine ⟨le_refl 0, fun hlt => by norm_num at hlt, fun _ => ⟨rfl, rfl⟩⟩
  · rw [unlockBodyScroll_ne_one h]
    dsimp only
    refine ⟨by omega, fun _ => ⟨rfl, rfl⟩, fun hc => absurd hc (by omega)⟩

theorem scrollInv_ops {v : String} (ops : List ScrollOp) :
    ∀ s : ScrollState, ScrollInv v s →
      wellFormedFrom s.scrollLockCounter ops = true →
      ScrollInv v (applyScrollOps ops s) := by
  induction ops with
  | nil => intro s hs _; exact hs
  | cons op rest ih =>
      intro s hs hwf
      cases op with
      | lock =>
          have hwf' : wellFormedFrom (lockBodyScroll s).scrollLockCounter rest = true := by
            rw [lockBodyScroll_counter]
            simpa [wellFormedFrom] using hwf
          exact ih (lockBodyScroll s) (scrollInv_lock hs) hwf'
      | unlock =>
          simp only [wellFormedFrom, Bool.and_eq_true, decide_eq_true_eq] at hwf
          obtain ⟨hpos, hrest⟩ := hwf
          have hwf' : wellFormedFrom (unlockBodyScroll s).scrollLockCounter rest = true := by
            rw [unlockBodyScroll_counter]; exact hrest
          exact ih (unlockBodyScroll s) (scrollInv_unlock hs hpos) hwf'

/-- C1: for every sequence of `lockBodyScroll` / `unlockBodyScroll` calls in
which closes never outnumber opens (any order of closing N opened modals),
starting from the module's initial state over a body whose overflow is `v`:
the `"hidden"` override is in effect iff the counter is positive; when the
counter is back to zero the body overflow is byte-identical to the pre-lock
value `v` and the saved style is cleared; moreover a lock on a nonzero
counter and an unlock that does not reach zero leave the body style and the
saved style untouched (the style is modified only on the 0→1 transition and
restored only on the 1→0 transition). -/
theorem scroll_lock_spec (v : String) (hv : v ≠ "hidden") (ops : List ScrollOp)
    (hwf : wellFormedFrom 0 ops = true) :
    ((applyScrollOps ops (initialScrollState v)).bodyOverflow = "hidden"
        ↔ 0 < (applyScrollOps ops (initialScrollState v)).scrollLockCounter)
    ∧ ((applyScrollOps ops (initialScrollState v)).scrollLockCounter = 0 →
        (applyScrollOps ops (initialScrollState v)).bodyOverflow = v
          ∧ (applyScrollOps ops (initialScrollState v)).originalBodyStyle = none)
    ∧ (∀ t : ScrollState, t.scrollLockCounter ≠ 0 →
        (lockBodyScroll t).bodyOverflow = t.bodyOverflow
          ∧ (lockBodyScroll t).originalBodyStyle = t.originalBodyStyle)
    ∧ (∀ t : ScrollState, t.scrollLockCounter ≠ 1 →
        (unlockBodyScroll t).bodyOverflow = t.bodyOverflow
          ∧ (unlockBodyScroll t).originalBodyStyle = t.originalBodyStyle) := by
  have hInv0 : ScrollInv v (initialScrollState v) := by
    unfold ScrollInv initialScrollState
    dsimp only
    exact ⟨le_refl 0, fun hlt => by norm_num at hlt, fun _ => ⟨rfl, rfl⟩⟩
  have hInv : ScrollInv v (applyScrollOps ops (initialScrollState v)) :=
    scrollInv_ops ops (initialScrollState v) hInv0 hwf
  obtain ⟨hnn, hpos, hzero⟩ := hInv
  refine ⟨⟨?_, fun hp => (hpos hp).1⟩, hzero, ?_, ?_⟩
  · intro hb
    by_contra hnot
    have hc0 : (applyScrollOps ops (initialScrollState v)).scrollLockCounter = 0 := by omega
    exact hv ((hzero hc0).1 ▸ hb ▸ rfl)
  · intro t ht
    obtain ⟨c, o, b⟩ := t
    dsimp only at ht
    rw [lockBodyScroll_ne_zero ht]
    exact ⟨rfl, rfl⟩
  · intro t ht
    obtain ⟨c, o, b⟩ := t
    dsimp only at ht
    have h : ¬ c - 1 = 0 := by omega
    rw [unlockBodyScroll_ne_one h]
    exact ⟨rfl, rfl⟩

/-- Witness for C1: two nested opens followed by two closes over a body with
overflow `"auto"`. -/
theorem scroll_lock_spec_witness :
    ("auto" : String) ≠ "hidden"
    ∧ wellFormedFrom 0
        [ScrollOp.lock, ScrollOp.lock, ScrollOp.unlock, ScrollOp.unlock] = true
    ∧ ((applyScrollOps
          [ScrollOp.lock, ScrollOp.lock, ScrollOp.unlock, ScrollOp.unlock]
          (initialScrollState "auto")).scrollLockCounter = 0 →
        (applyScrollOps
            [ScrollOp.lock, ScrollOp.lock, ScrollOp.unlock, ScrollOp.unlock]
            (initialScrollState "auto")).bodyOverflow = "auto"
          ∧ (applyScrollOps
              [ScrollOp.lock, ScrollOp.lock, ScrollOp.unlock, ScrollOp.unlock]
              (initialScrollState "auto")).originalBodyStyle = none) :=
  ⟨by decide, by decide,
    (scroll_lock_spec "auto" (by decide)
      [ScrollOp.lock, ScrollOp.lock, ScrollOp.unlock, ScrollOp.unlock]
      (by decide)).2.1⟩

/-! ## Focusable-element computation (`Modal.tsx`, `getFocusableElements`)

A DOM element is identified by a numeric id; the attributes consulted by
the focusability selector and the visibility filter are carried
explicitly.  `querySelectorAll` over the container's subtree is modelled
as filtering the document-ordered list of the container's descendants.
The numeric `tabindex` field models the `tabindex` attribute (the
selector's `[tabindex="-1"]` test). -/

structure DomElement where
  id : Nat
  tag : String
  disabled : Bool
  hasHref : Bool
  hasControls : Bool
  contenteditable : Option String
  tabindex : Option Int
  display : String
  visibility : String
  ariaHidden : Bool
  isHTMLElement : Bool
deriving DecidableEq, Repr

/-- The comma-joined selector list of `getFocusableElements`: an element
matches if it matches any of the eleven selectors. -/
def matchesFocusableSelector (e : DomElement) : Bool :=
  (e.tag == "button" && !e.disabled) ||
  (e.tag == "input" && !e.disabled) ||
  (e.tag == "textarea" && !e.disabled) ||
  (e.tag == "select" && !e.disabled) ||
  (e.tag == "details") ||
  (e.tag == "summary" && !e.disabled) ||
  (e.tag == "a" && e.hasHref) ||
  (e.tag == "audio" && e.hasControls) ||
  (e.tag == "video" && e.hasControls) ||
  (match e.contenteditable with
   | some val => val != "false"
   | none => false) ||
  (match e.tabindex with
   | some t => !(t == -1)
   | none => false)

/-- The `.filter` callback of `getFocusableElements`: additional checks for
visibility and accessibility (`instanceof HTMLElement`, computed `display`
and `visibility`, absence of `aria-hidden`). -/
def isVisibleElement (e : DomElement) : Bool :=
  e.isHTMLElement && e.display != "none" && e.visibility != "hidden" && !e.ariaHidden

/-- `getFocusableElements(container)`: the selector query over the
container's descendants in document order, then the visibility filter. -/
def getFocusableElements (descendants : List DomElement) : List DomElement :=
  (descendants.filter matchesFocusableSelector).filter isVisibleElement

/-! ## Keyboard handling (`Modal.tsx`, `handleKeyDown`)

The handler reads `isOpen`, `closeOnEscape`, the modal container's
current descendants (the focusable list is recomputed inside the `Tab`
branch via `updateFocusableElements`, so the handler depends on the
descendants as they are at keydown time) and `document.activeElement`
(identified by id, `none` for null).  Its observable outcome is whether
`preventDefault` ran, whether `onClose` was invoked, and the active
element after any `.focus()` call made by the handler. -/

structure KeyboardEvent where
  key : String
  shiftKey : Bool
deriving DecidableEq, Repr

structure KeyDownResult where
  defaultPrevented : Bool
  closeCalled : Bool
  focusedAfter : Option Nat
deriving DecidableEq, Repr

/-- `handleKeyDown`, for a modal whose container ref is populated (the
library's normal mode, where no external ref is forwarded). -/
def handleKeyDown (isOpen closeOnEscape : Bool) (descendants : List DomElement)
    (active : Option Nat) (e : KeyboardEvent) : KeyDownResult :=
  if !isOpen then ⟨false, false, active⟩
  else if e.key == "Escape" && closeOnEscape then ⟨true, true, active⟩
  else if e.key == "Tab" then
    let focusables := (getFocusableElements descendants).map DomElement.id
    let first : Option Nat := focusables.head?
    let last : Option Nat := focusables.getLast?
    if focusables.length = 0 then ⟨true, false, active⟩
    else if e.shiftKey then
      if active = first then ⟨true, false, last⟩ else ⟨false, false, active⟩
    else
      if active = last then ⟨true, false, first⟩ else ⟨false, false, active⟩
  else ⟨false, false, active⟩

/-- `handleBackdropClick`: `onClose` is invoked iff `closeOnBackdropClick`
holds and the click target is exactly the backdrop element. -/
def handleBackdropClick (closeOnBackdropClick : Bool) (target : Nat)
    (backdrop : Option Nat) : Bool :=
  closeOnBackdropClick && backdrop == some target

/-- Default of the `closeOnBackdropClick` prop (destructuring default). -/
def closeOnBackdropClickDefault : Bool := true

/-- Default of the `closeOnEscape` prop (destructuring default). -/
def closeOnEscapeDefault : Bool := true

/-! ## Initial focus on open and focus restoration on close
(`Modal.tsx`, focus-management `useEffect`) -/

/-- The element focused by the open effect's delayed callback:
`initialFocusRef?.current`, else the first focusable descendant, else the
modal container (`modalRef.current?.focus()`). -/
def openFocusTarget (initialFocusCurrent : Option Nat)
    (descendants : List DomElement) (container : Option Nat) : Option Nat :=
  match initialFocusCurrent with
  | some e => some e
  | none =>
    match ((getFocusableElements descendants).map DomElement.id).head? with
    | some f => some f
    | none => container

/-- Models `HTMLElement.focus()` against the document: focusing an element
that is not connected to the document is a no-op (per the DOM focus
contract the browser provides to this code); otherwise the element becomes
the active element. -/
def domFocus (connected : Nat → Bool) (e : Nat) (active : Option Nat) : Option Nat :=
  if connected e then some e else active

/-- The effect cleanup's focus restoration: `finalFocusRef?.current` if
present, else `previousActiveElement.current` when it is an `HTMLElement`. -/
def restoreFocusOnClose (connected : Nat → Bool) (finalFocusCurrent : Option Nat)
    (previousActive : Option DomElement) (active : Option Nat) : Option Nat :=
  match finalFocusCurrent with
  | some e => domFocus connected e active
  | none =>
    match previousActive with
    | some p => if p.isHTMLElement then domFocus connected p.id active else active
    | none => active

/-- C2: on a Tab keydown while open, the handler works from the
focusable-descendant list recomputed from the container's current
descendants; with an empty list every Tab press is suppressed and focus
stays put; from the last element, Tab without shift is prevented and focus
moves to the first; from the first element, Shift+Tab is prevented and
focus moves to the last. -/
theorem tab_focus_trap (c : Bool) (d : List DomElement) (a : Option Nat) :
    (∀ s : Bool, getFocusableElements d = [] →
        handleKeyDown true c d a ⟨"Tab", s⟩ = ⟨true, false, a⟩)
    ∧ (getFocusableElements d ≠ [] →
        a = ((getFocusableElements d).map DomElement.id).getLast? →
        handleKeyDown true c d a ⟨"Tab", false⟩
          = ⟨true, false, ((getFocusableElements d).map DomElement.id).head?⟩)
    ∧ (getFocusableElements d ≠ [] →
        a = ((getFocusableElements d).map DomElement.id).head? →
        handleKeyDown true c d a ⟨"Tab", true⟩
          = ⟨true, false, ((getFocusableElements d).map DomElement.id).getLast?⟩) := by
  have hs : ("Tab" : String) ≠ "Escape" := by decide
  refine ⟨?_, ?_, ?_⟩
  · intro s hempty
    simp [handleKeyDown, hempty, hs]
  · intro hne ha
    have hlen : ((getFocusableElements d).map DomElement.id).length ≠ 0 := by
      simpa using fun h => hne (List.eq_nil_of_length_eq_zero h)
    simp only [handleKeyDown]
    norm_num [hlen, ha, hs, hne]
  · intro hne ha
    have hlen : ((getFocusableElements d).map DomElement.id).length ≠ 0 := by
      simpa using fun h => hne (List.eq_nil_of_length_eq_zero h)
    simp only [handleKeyDown]
    norm_num [hlen, ha, hs, hne]

/-- Witness for C2: a modal containing an enabled button, a disabled
button (filtered out) and an enabled input; Tab from the input wraps to
the button, Shift+Tab from the button wraps to the input; with no
focusable content every Tab press is suppressed. -/
theorem tab_focus_trap_witness :
    getFocusableElements
        [⟨1, "button", false, false, false, none, none, "block", "visible", false, true⟩,
         ⟨2, "button", true, false, false, none, none, "block", "visible", false, true⟩,
         ⟨3, "input", false, false, false, none, none, "block", "visible", false, true⟩] ≠ []
    ∧ handleKeyDown true true
        [⟨1, "button", false, false, false, none, none, "block", "visible", false, true⟩,
         ⟨2, "button", true, false, false, none, none, "block", "visible", false, true⟩,
         ⟨3, "input", false, false, false, none, none, "block", "visible", false, true⟩]
        (some 3) ⟨"Tab", false⟩ = ⟨true, false, some 1⟩ := by
  constructor
  · decide
  · have h := (tab_focus_trap true
      [⟨1, "button", false, false, false, none, none, "block", "visible", false, true⟩,
       ⟨2, "button", true, false, false, none, none, "block", "visible", false, true⟩,
       ⟨3, "input", false, false, false, none, none, "block", "visible", false, true⟩]
      (some 3)).2.1 (by decide) (by decide)
    simpa using h

/-- C3: when the modal opens (container ref populated), focus is moved to
exactly one target by priority: the supplied initial-focus target if
given, else the first element of the computed focusable-descendant list,
else the modal container itself; in particular with zero focusable
descendants focus still lands on the container, inside the modal subtree. -/
theorem open_focus_priority (init : Option Nat) (d : List DomElement)
    (container : Option Nat) :
    (∀ e, init = some e → openFocusTarget init d container = some e)
    ∧ (init = none → getFocusableElements d ≠ [] →
        openFocusTarget init d container
          = ((getFocusableElements d).map DomElement.id).head?)
    ∧ (∀ cid, init = none → getFocusableElements d = [] → container = some cid →
        openFocusTarget init d container = some cid) := by
  refine ⟨?_, ?_, ?_⟩
  · intro e he
    simp [openFocusTarget, he]
  · intro hi hne
    subst hi
    simp only [openFocusTarget]
    cases hh : ((getFocusableElements d).map DomElement.id).head? with
    | none =>
        exact absurd (List.map_eq_nil_iff.mp (List.head?_eq_none_iff.mp hh)) hne
    | some f => simp [hh]
  · intro cid hi hempty hc
    subst hi
    simp [openFocusTarget, hempty, hc]

/-- Witness for C3: a modal whose only descendant is an `aria-hidden`
span — zero focusable descendants — and no initial-focus target: focus
falls back to the container (id 7). -/
theorem open_focus_priority_witness :
    getFocusableElements
        [⟨4, "span", false, false, false, none, none, "block", "visible", true, true⟩] = []
    ∧ openFocusTarget none
        [⟨4, "span", false, false, false, none, none, "block", "visible", true, true⟩]
        (some 7) = some 7 :=
  ⟨by decide,
    (open_focus_priority none
      [⟨4, "span", false, false, false, none, none, "block", "visible", true, true⟩]
      (some 7)).2.2 7 rfl (by decide) rfl⟩

/-- C4: on close, focus is restored to the supplied final-focus target if
one is given; otherwise to the element captured before the modal opened,
and the restoration takes effect only if that captured element is still
attached to the document (focusing a detached element is a no-op). -/
theorem close_focus_restore (connected : Nat → Bool) (finalF : Option Nat)
    (prev : Option DomElement) (active : Option Nat) :
    (∀ e, finalF = some e → connected e = true →
        restoreFocusOnClose connected finalF prev active = some e)
    ∧ (∀ p, finalF = none → prev = some p → p.isHTMLElement = true →
        connected p.id = true →
        restoreFocusOnClose connected finalF prev active = some p.id)
    ∧ (∀ p, finalF = none → prev = some p → connected p.id = false →
        restoreFocusOnClose connected finalF prev active = active) := by
  refine ⟨?_, ?_, ?_⟩
  · intro e he hc
    simp [restoreFocusOnClose, domFocus, he, hc]
  · intro p hf hp hhtml hc
    simp [restoreFocusOnClose, domFocus, hf, hp, hhtml, hc]
  · intro p hf hp hc
    cases hhtml : p.isHTMLElement <;>
      simp [restoreFocusOnClose, domFocus, hf, hp, hhtml, hc]

/-- Witness for C4: with no final-focus target, a previously focused
button (id 9) that is still attached regains focus; the same captured
element detached from the document leaves focus untouched. -/
theorem close_focus_restore_witness :
    restoreFocusOnClose (fun n => n == 9) none
        (some ⟨9, "button", false, false, false, none, none, "block", "visible", false, true⟩)
        (some 0) = some 9
    ∧ restoreFocusOnClose (fun _ => false) none
        (some ⟨9, "button", false, false, false, none, none, "block", "visible", false, true⟩)
        (some 0) = some 0 :=
  ⟨(close_focus_restore (fun n => n == 9) none
      (some ⟨9, "button", false, false, false, none, none, "block", "visible", false, true⟩)
      (some 0)).2.1
      ⟨9, "button", false, false, false, none, none, "block", "visible", false, true⟩
      rfl rfl rfl rfl,
    (close_focus_restore (fun _ => false) none
      (some ⟨9, "button", false, false, false, none, none, "block", "visible", false, true⟩)
      (some 0)).2.2
      ⟨9, "button", false, false, false, none, none, "block", "visible", false, true⟩
      rfl rfl rfl⟩

/-- C5: while the modal is open, Escape prevents default and invokes the
close callback iff `closeOnEscape` is enabled (while closed the handler
does nothing); a click invokes the close callback iff
`closeOnBackdropClick` is enabled and the click target is exactly the
backdrop element; both flags default to enabled. -/
theorem dismiss_toggles (c : Bool) (d : List DomElement) (a : Option Nat)
    (shift : Bool) (b : Bool) (target : Nat) (backdrop : Option Nat) :
    ((handleKeyDown true c d a ⟨"Escape", shift⟩).closeCalled = true ↔ c = true)
    ∧ (c = true →
        handleKeyDown true c d a ⟨"Escape", shift⟩ = ⟨true, true, a⟩)
    ∧ (∀ e : KeyboardEvent, handleKeyDown false c d a e = ⟨false, false, a⟩)
    ∧ (handleBackdropClick b target backdrop = true
        ↔ b = true ∧ backdrop = some target)
    ∧ closeOnEscapeDefault = true ∧ closeOnBackdropClickDefault = true := by
  refine ⟨?_, ?_, ?_, ?_, rfl, rfl⟩
  · cases c <;> simp [handleKeyDown]
  · intro hc
    subst hc
    simp [handleKeyDown]
  · intro e
    simp [handleKeyDown]
  · cases b <;> simp [handleBackdropClick]

/-- Witness for C5: with `closeOnEscape` enabled, Escape while open
prevents default and calls `onClose`. -/
theorem dismiss_toggles_witness :
    handleKeyDown true true [] (some 1) ⟨"Escape", false⟩ = ⟨true, true, some 1⟩ :=
  (dismiss_toggles true [] (some 1) false true 0 none).2.1 rfl

/-! ## Alert dismissal (`Alert.tsx`)

Component-local state: `isVisible` (initially `true`), `isExiting`
(initially `false`).  `handleDismiss` is a no-op unless `dismissible` and
not already exiting; otherwise it sets `isExiting` and schedules a
300 ms timeout whose callback clears `isVisible` and invokes
`onDismiss?.()`.  The pending timeout and the number of `onDismiss`
invocations are tracked explicitly; events are dismiss requests (close
button click / keyboard) and the scheduled timer firing. -/

structure AlertState where
  isVisible : Bool
  isExiting : Bool
  pendingTimer : Bool
  dismissCount : Nat
deriving DecidableEq, Repr

/-- `useState(true)` / `useState(false)`, no timer, no callback run yet. -/
def alertInitialState : AlertState := ⟨true, false, false, 0⟩

inductive AlertEvent where
  | requestDismiss
  | timerFire
deriving DecidableEq, Repr

/-- One event against the Alert: `requestDismiss` is `handleDismiss`
(guarded by `!dismissible || isExiting`); `timerFire` is the scheduled
timeout callback (`setIsVisible(false); onDismiss?.()`). -/
def alertStep (dismissible : Bool) (s : AlertState) : AlertEvent → AlertState
  | AlertEvent.requestDismiss =>
    if !dismissible || s.isExiting then s
    else { s with isExiting := true, pendingTimer := true }
  | AlertEvent.timerFire =>
    if s.pendingTimer then
      { s with isVisible := false, pendingTimer := false,
               dismissCount := s.dismissCount + 1 }
    else s

def runAlert (dismissible : Bool) (events : List AlertEvent) : AlertState :=
  events.foldl (alertStep dismissible) alertInitialState

inductive AlertPhase where
  | visible
  | exiting
  | removed
deriving DecidableEq, Repr

/-- The spec's three-phase view of the component state: `removed` once
`isVisible` is false (the component returns `null`), `exiting` while the
exit animation runs, `visible` otherwise. -/
def alertPhase (s : AlertState) : AlertPhase :=
  if !s.isVisible then AlertPhase.removed
  else if s.isExiting then AlertPhase.exiting
  else AlertPhase.visible

def phaseRank : AlertPhase → Nat
  | AlertPhase.visible => 0
  | AlertPhase.exiting => 1
  | AlertPhase.removed => 2

/-- Line `if (!isVisible) return null`: the component renders iff
`isVisible`. -/
def alertRenders (s : AlertState) : Bool := s.isVisible

/-- The three states reachable from the initial Alert state. -/
def AlertReachable (s : AlertState) : Prop :=
  s = ⟨true, false, false, 0⟩ ∨ s = ⟨true, true, true, 0⟩ ∨ s = ⟨false, true, false, 1⟩

theorem alertReachable_step (d : Bool) (s : AlertState) (e : AlertEvent)
    (hs : AlertReachable s) : AlertReachable (alertStep d s e) := by
  unfold AlertReachable at hs ⊢
  rcases hs with h | h | h <;> subst h <;> cases e <;> cases d <;> decide

theorem runAlert_reachable (d : Bool) (events : List AlertEvent) :
    AlertReachable (runAlert d events) := by
  suffices h : ∀ s, AlertReachable s → AlertReachable (events.foldl (alertStep d) s) by
    exact h alertInitialState (Or.inl rfl)
  induction events with
  | nil => intro s hs; exact hs
  | cons e rest ih =>
      intro s hs
      exact ih (alertStep d s e) (alertReachable_step d s e hs)

/-- C6: the Alert dismissal machine moves `visible → exiting → removed`
monotonically with no transition back; `removed` is terminal and renders
nothing; a dismiss while not dismissible or while already exiting is a
no-op; and along any event sequence from the initial state the external
removal callback runs at most once. -/
theorem alert_state_machine :
    (∀ (d : Bool) (s : AlertState) (e : AlertEvent), AlertReachable s →
        phaseRank (alertPhase s) ≤ phaseRank (alertPhase (alertStep d s e)))
    ∧ (∀ (d : Bool) (s : AlertState) (e : AlertEvent), AlertReachable s →
        alertPhase s = AlertPhase.removed → alertStep d s e = s)
    ∧ (∀ s : AlertState, alertPhase s = AlertPhase.removed → alertRenders s = false)
    ∧ (∀ s : AlertState, alertStep false s AlertEvent.requestDismiss = s)
    ∧ (∀ (d : Bool) (s : AlertState), s.isExiting = true →
        alertStep d s AlertEvent.requestDismiss = s)
    ∧ (∀ (d : Bool) (events : List AlertEvent),
        (runAlert d events).dismissCount ≤ 1) := by
  refine ⟨?_, ?_, ?_, ?_, ?_, ?_⟩
  · intro d s e hs
    rcases hs with h | h | h <;> subst h <;> cases e <;> cases d <;> decide
  · intro d s e hs hr
    rcases hs with h | h | h <;> subst h <;> first
      | (cases e <;> cases d <;> decide)
      | (exfalso; revert hr; decide)
  · intro s hr
    obtain ⟨v, x, p, n⟩ := s
    cases v
    · rfl
    · cases x <;> simp [alertPhase] at hr
  · intro s
    simp [alertStep]
  · intro d s hx
    simp [alertStep, hx]
  · intro d events
    rcases runAlert_reachable d events with h | h | h <;> rw [h] <;> decide

/-- Witness for C6: dismissing a dismissible alert, dismissing again while
it is exiting, letting the timer fire, then dismissing once more: the
phase rank never decreases on the first step, a dismiss on an exiting
state is a no-op, and the removal callback has run exactly once. -/
theorem alert_state_machine_witness :
    phaseRank (alertPhase alertInitialState)
      ≤ phaseRank (alertPhase (alertStep true alertInitialState AlertEvent.requestDismiss))
    ∧ alertStep true ⟨true, true, true, 0⟩ AlertEvent.requestDismiss = ⟨true, true, true, 0⟩
    ∧ (runAlert true
        [AlertEvent.requestDismiss, AlertEvent.requestDismiss,
         AlertEvent.timerFire, AlertEvent.requestDismiss]).dismissCount ≤ 1 :=
  ⟨alert_state_machine.1 true alertInitialState AlertEvent.requestDismiss (Or.inl rfl),
    alert_state_machine.2.2.2.2.1 true ⟨true, true, true, 0⟩ rfl,
    alert_state_machine.2.2.2.2.2 true
      [AlertEvent.requestDismiss, AlertEvent.requestDismiss,
       AlertEvent.timerFire, AlertEvent.requestDismiss]⟩

/-! ## Class-list computation (shared JSX idiom)

`[a, b && c, d].filter(Boolean).join(' ')`: falsy entries — `undefined`,
`false`, and the empty string — are dropped.  CSS-module lookups are an
abstract map `String → Option String` (the module files are not part of
the library source; a missing key yields `undefined`). -/

def joinClasses (entries : List (Option String)) : String :=
  String.intercalate " " ((entries.filterMap id).filter (fun s => s != ""))

/-! ## Modal and Card sub-region components

`ModalHeader` / `ModalBody` / `ModalFooter` read the Modal context and
throw synchronously when it is absent.  `CardHeader` / `CardBody` /
`CardFooter` perform no context lookup at all (their signatures have no
context input, exactly as in the source), so they can never fail.
Rendering is modelled as `Except`: `error` is a synchronous throw. -/

structure ModalContextValue where
  onCloseId : Nat
  titleId : String
deriving DecidableEq, Repr

structure ModalHeaderView where
  titleId : String
  showCloseButton : Bool
deriving DecidableEq, Repr

def modalHeaderRender (context : Option ModalContextValue)
    (showCloseButton : Bool) : Except String ModalHeaderView :=
  match context with
  | none => Except.error "ModalHeader must be used within a Modal component"
  | some ctx => Except.ok ⟨ctx.titleId, showCloseButton⟩

def modalBodyRender (context : Option ModalContextValue) : Except String Unit :=
  match context with
  | none => Except.error "ModalBody must be used within a Modal component"
  | some _ => Except.ok ()

def modalFooterRender (context : Option ModalContextValue) : Except String Unit :=
  match context with
  | none => Except.error "ModalFooter must be used within a Modal component"
  | some _ => Except.ok ()

/-- `CardHeader`: computes its class list and renders; no parent-context
check of any kind. -/
def cardHeaderRender (stylesMap : String → Option String)
    (className : Option String) : Except String String :=
  Except.ok (joinClasses [stylesMap "header", className])

/-- `CardBody`: same shape as `CardHeader`. -/
def cardBodyRender (stylesMap : String → Option String)
    (className : Option String) : Except String String :=
  Except.ok (joinClasses [stylesMap "body", className])

/-- `CardFooter`: same shape as `CardHeader`. -/
def cardFooterRender (stylesMap : String → Option String)
    (className : Option String) : Except String String :=
  Except.ok (joinClasses [stylesMap "footer", className])

/-- Counterexample to C7 as stated: `CardHeader` rendered with no `Card`
(or any other) ancestor — identity style map, no extra class — renders
successfully instead of raising an error, so not every sub-region
component fails loudly outside its parent. -/
theorem card_subregion_no_error :
    cardHeaderRender (fun k => some k) none = Except.ok "header" := rfl

/-- C7 (amended): the Modal sub-region components raise a synchronous
error when rendered outside a Modal context and render normally inside
one; the Card sub-region components perform no parent-context check and
always render successfully. -/
theorem subregion_parent_errors :
    (∀ s : Bool, modalHeaderRender none s
        = Except.error "ModalHeader must be used within a Modal component")
    ∧ modalBodyRender none
        = Except.error "ModalBody must be used within a Modal component"
    ∧ modalFooterRender none
        = Except.error "ModalFooter must be used within a Modal component"
    ∧ (∀ (c : ModalContextValue) (s : Bool),
        modalHeaderRender (some c) s = Except.ok ⟨c.titleId, s⟩)
    ∧ (∀ (c : ModalContextValue),
        modalBodyRender (some c) = Except.ok () ∧ modalFooterRender (some c) = Except.ok ())
    ∧ (∀ (m : String → Option String) (cl : Option String),
        cardHeaderRender m cl = Except.ok (joinClasses [m "header", cl])
        ∧ cardBodyRender m cl = Except.ok (joinClasses [m "body", cl])
        ∧ cardFooterRender m cl = Except.ok (joinClasses [m "footer", cl])) :=
  ⟨fun _ => rfl, rfl, rfl, fun _ _ => rfl, fun _ => ⟨rfl, rfl⟩, fun _ _ => ⟨rfl, rfl, rfl⟩⟩

/-! ## Button rendering (`Button.tsx`) -/

structure ButtonProps where
  variant : String
  size : String
  loading : Bool
  disabled : Bool
  fullWidth : Bool
  leftIcon : Option Nat
  rightIcon : Option Nat
  className : Option String
deriving DecidableEq, Repr

structure ButtonView where
  typeAttr : String
  classes : String
  disabledAttr : Bool
  ariaBusy : Bool
  ariaDisabled : Bool
  spinnerRendered : Bool
  leftIconRendered : Bool
  rightIconRendered : Bool
deriving DecidableEq, Repr

/-- The Button render: `isDisabled = disabled || loading` drives the
`disabled` attribute and `aria-disabled`; `aria-busy` mirrors `loading`;
the spinner renders iff `loading`; each icon renders iff present and not
loading  (`!loading && leftIcon && ...`). -/
def renderButton (stylesMap : String → Option String) (p : ButtonProps) : ButtonView :=
  let isDisabled := p.disabled || p.loading
  { typeAttr := "button"
    classes := joinClasses
      [some "zyfi-components",
       stylesMap "button",
       stylesMap ("variant-" ++ p.variant),
       stylesMap ("size-" ++ p.size),
       if p.loading then stylesMap "loading" else none,
       if isDisabled then stylesMap "disabled" else none,
       if p.fullWidth then stylesMap "fullWidth" else none,
       p.className]
    disabledAttr := isDisabled
    ariaBusy := p.loading
    ariaDisabled := isDisabled
    spinnerRendered := p.loading
    leftIconRendered := !p.loading && p.leftIcon.isSome
    rightIconRendered := !p.loading && p.rightIcon.isSome }

/-- C9: a loading Button renders disabled, `aria-busy`, `aria-disabled`,
with a spinner and with neither icon; equivalently the rendered button is
interactive (not disabled) iff both `disabled` and `loading` are false. -/
theorem button_loading_disables (m : String → Option String) (p : ButtonProps) :
    (p.loading = true →
        (renderButton m p).disabledAttr = true
        ∧ (renderButton m p).ariaBusy = true
        ∧ (renderButton m p).ariaDisabled = true
        ∧ (renderButton m p).spinnerRendered = true
        ∧ (renderButton m p).leftIconRendered = false
        ∧ (renderButton m p).rightIconRendered = false)
    ∧ ((renderButton m p).disabledAttr = false
        ↔ p.disabled = false ∧ p.loading = false) := by
  constructor
  · intro hl
    simp [renderButton, hl]
  · cases hd : p.disabled <;> cases hl : p.loading <;> simp [renderButton, hd, hl]

/-- Witness for C9: a loading button with both icons supplied renders the
spinner, suppresses both icons, and is disabled. -/
theorem button_loading_disables_witness :
    (renderButton (fun k => some k)
        ⟨"primary", "md", true, false, false, some 1, some 2, none⟩).disabledAttr = true
    ∧ (renderButton (fun k => some k)
        ⟨"primary", "md", true, false, false, some 1, some 2, none⟩).ariaBusy = true
    ∧ (renderButton (fun k => some k)
        ⟨"primary", "md", true, false, false, some 1, some 2, none⟩).ariaDisabled = true
    ∧ (renderButton (fun k => some k)
        ⟨"primary", "md", true, false, false, some 1, some 2, none⟩).spinnerRendered = true
    ∧ (renderButton (fun k => some k)
        ⟨"primary", "md", true, false, false, some 1, some 2, none⟩).leftIconRendered = false
    ∧ (renderButton (fun k => some k)
        ⟨"primary", "md", true, false, false, some 1, some 2, none⟩).rightIconRendered = false :=
  (button_loading_disables (fun k => some k)
    ⟨"primary", "md", true, false, false, some 1, some 2, none⟩).1 rfl

/-! ## Card rendering (`Card.tsx`) -/

structure CardProps where
  elevation : String
  padding : String
  hover : Bool
  onClick : Option Nat
  className : Option String
deriving DecidableEq, Repr

/-- The single `cardClasses` computation shared by both render branches
(`isInteractive = Boolean(onClick)` adds the `interactive` class). -/
def cardClasses (m : String → Option String) (p : CardProps) : String :=
  joinClasses
    [some "zyfi-components",
     m "card",
     m ("elevation-" ++ p.elevation),
     m ("padding-" ++ p.padding),
     if p.hover then m "hover" else none,
     if p.onClick.isSome then m "interactive" else none,
     p.className]

inductive CardRootTag where
  | button
  | div
deriving DecidableEq, Repr

structure CardView where
  rootTag : CardRootTag
  typeAttr : Option String
  onClickAttached : Option Nat
  classes : String
deriving DecidableEq, Repr

/-- The Card render: a `motion.button` with `type="button"` and the
`onClick` handler when interactive, else a `motion.div` (the `onClick`
prop was destructured out, so the div carries no click handler); both
branches use the one `cardClasses` value. -/
def renderCard (m : String → Option String) (p : CardProps) : CardView :=
  let isInteractive := p.onClick.isSome
  let classes := cardClasses m p
  if isInteractive then
    { rootTag := CardRootTag.button, typeAttr := some "button",
      onClickAttached := p.onClick, classes := classes }
  else
    { rootTag := CardRootTag.div, typeAttr := none,
      onClickAttached := none, classes := classes }

/-- C10: a Card renders as a native button (with `type="button"` and the
supplied handler attached) iff an `onClick` handler is provided, else as
a plain div with no handler, and both branches carry the same
`cardClasses` computation. -/
theorem card_interactive_render (m : String → Option String) (p : CardProps) :
    ((renderCard m p).rootTag = CardRootTag.button ↔ p.onClick.isSome = true)
    ∧ (∀ h, p.onClick = some h →
        (renderCard m p).typeAttr = some "button"
        ∧ (renderCard m p).onClickAttached = some h)
    ∧ (p.onClick = none →
        (renderCard m p).rootTag = CardRootTag.div
        ∧ (renderCard m p).typeAttr = none
        ∧ (renderCard m p).onClickAttached = none)
    ∧ (renderCard m p).classes = cardClasses m p := by
  cases hp : p.onClick <;> simp [renderCard, hp]

/-- Witness for C10: a Card given handler 5 renders as a button carrying
that handler; the same Card without a handler renders as a div. -/
theorem card_interactive_render_witness :
    (renderCard (fun k => some k) ⟨"medium", "md", false, some 5, none⟩).typeAttr
        = some "button"
    ∧ (renderCard (fun k => some k) ⟨"medium", "md", false, some 5, none⟩).onClickAttached
        = some 5
    ∧ (renderCard (fun k => some k) ⟨"medium", "md", false, none, none⟩).rootTag
        = CardRootTag.div :=
  ⟨((card_interactive_render (fun k => some k)
      ⟨"medium", "md", false, some 5, none⟩).2.1 5 rfl).1,
    ((card_interactive_render (fun k => some k)
      ⟨"medium", "md", false, some 5, none⟩).2.1 5 rfl).2,
    ((card_interactive_render (fun k => some k)
      ⟨"medium", "md", false, none, none⟩).2.2.1 rfl).1⟩

/-! ## Animation presets and reduced motion (`animations.ts`)

`shouldReduceMotion()` reads `window.matchMedia('(prefers-reduced-motion:
reduce)').matches` (false when `window` is undefined); the hosting
environment is modelled explicitly.  `getTransition` consults it at call
time.  The exported presets (`modalBackdrop`, `modalEnter`,
`modalMobileSlide`, …) are module-level constants: `getTransition` runs
for them exactly once, at module initialisation, so they are functions of
the environment at load time, `envLoad`.  Durations are seconds as `ℚ`;
only the transition fields of each variant are modelled (the animated
x/y/opacity values are presentation data). -/

structure MotionEnv where
  windowDefined : Bool
  prefersReducedMotion : Bool
deriving DecidableEq, Repr

def shouldReduceMotion (env : MotionEnv) : Bool :=
  if !env.windowDefined then false else env.prefersReducedMotion

inductive Ease where
  | cubicBezier (p1 p2 p3 p4 : ℚ)
  | linear
deriving DecidableEq, Repr

structure MotionTransition where
  duration : ℚ
  ease : Ease
deriving DecidableEq, Repr

def transitionsFast : MotionTransition := ⟨0.15, Ease.cubicBezier 0.4 0 0.2 1⟩

def transitionsBase : MotionTransition := ⟨0.3, Ease.cubicBezier 0.4 0 0.2 1⟩

def transitionsSlow : MotionTransition := ⟨0.6, Ease.cubicBezier 0.4 0 0.2 1⟩

/-- `getTransition`: if reduced motion is preferred at the moment of this
call, override the duration with `0.01`. -/
def getTransition (env : MotionEnv) (t : MotionTransition) : MotionTransition :=
  if shouldReduceMotion env then { t with duration := 0.01 } else t

structure VariantTransitions where
  animateT : MotionTransition
  exitT : Option MotionTransition
deriving DecidableEq, Repr

/-- `modalBackdrop` preset: base transition for both animate and exit,
baked at module load. -/
def modalBackdrop (envLoad : MotionEnv) : VariantTransitions :=
  ⟨getTransition envLoad transitionsBase, some (getTransition envLoad transitionsBase)⟩

/-- `modalEnter` preset: base transition on animate, fast on exit, baked
at module load. -/
def modalEnter (envLoad : MotionEnv) : VariantTransitions :=
  ⟨getTransition envLoad transitionsBase, some (getTransition envLoad transitionsFast)⟩

/-- `modalMobileSlide` preset: a custom 0.4 s cubic-bezier on animate,
base on exit, baked at module load. -/
def modalMobileSlide (envLoad : MotionEnv) : VariantTransitions :=
  ⟨getTransition envLoad ⟨0.4, Ease.cubicBezier 0.32 0.72 0 1⟩,
   some (getTransition envLoad transitionsBase)⟩

/-- The duration in force when the backdrop transition actually runs: the
Modal animates with the imported module-level preset, so the value
depends only on the load-time environment; the environment at animation
time (`envUse`) is not consulted — the parameter is ignored exactly as
the code ignores it, the preset being a module constant. -/
def modalBackdropAnimateDurationAtUse (envLoad _envUse : MotionEnv) : ℚ :=
  (modalBackdrop envLoad).animateT.duration

/-- Counterexample to C8 as stated: a module loaded while the
reduced-motion preference was unset animates the modal backdrop over
0.3 s even when the preference is set at the moment the transition runs —
the preference is consulted at module load, not at evaluation time, and
the duration does not collapse to 0.01. -/
theorem reduced_motion_not_at_use :
    modalBackdropAnimateDurationAtUse ⟨true, false⟩ ⟨true, true⟩ = 0.3
    ∧ shouldReduceMotion ⟨true, true⟩ = true
    ∧ (0.3 : ℚ) ≠ 0.01 := by
  refine ⟨rfl, rfl, by norm_num⟩

/-- C8 (amended): `getTransition` consults the reduced-motion preference
at the moment it is called and collapses the duration to 0.01 when set
(leaving the transition untouched otherwise); the exported modal presets
call it once at module initialisation, so their durations reflect the
preference at load time — collapsed when it was set then, and fixed
thereafter regardless of the preference at animation time. -/
theorem reduced_motion_amended (env : MotionEnv) (t : MotionTransition) :
    (shouldReduceMotion env = true → (getTransition env t).duration = 0.01)
    ∧ (shouldReduceMotion env = false → getTransition env t = t)
    ∧ (modalBackdrop env).animateT = getTransition env transitionsBase
    ∧ (modalEnter env).animateT = getTransition env transitionsBase
    ∧ (modalEnter env).exitT = some (getTransition env transitionsFast)
    ∧ (modalMobileSlide env).animateT
        = getTransition env ⟨0.4, Ease.cubicBezier 0.32 0.72 0 1⟩
    ∧ (shouldReduceMotion env = true →
        (modalBackdrop env).animateT.duration = 0.01
        ∧ (modalEnter env).animateT.duration = 0.01
        ∧ (modalMobileSlide env).animateT.duration = 0.01)
    ∧ (∀ envUse : MotionEnv,
        modalBackdropAnimateDurationAtUse env envUse
          = (getTransition env transitionsBase).duration) := by
  refine ⟨?_, ?_, rfl, rfl, rfl, rfl, ?_, fun _ => rfl⟩
  · intro h
    simp [getTransition, h]
  · intro h
    simp [getTransition, h]
  · intro h
    refine ⟨?_, ?_, ?_⟩ <;>
      simp [modalBackdrop, modalEnter, modalMobileSlide, getTransition, h]

/-- Witness for C8 (amended): with the preference set at load time, all
three modal presets collapse to a 0.01 s duration. -/
theorem reduced_motion_amended_witness :
    (modalBackdrop ⟨true, true⟩).animateT.duration = 0.01
    ∧ (modalEnter ⟨true, true⟩).animateT.duration = 0.01
    ∧ (modalMobileSlide ⟨true, true⟩).animateT.duration = 0.01 :=
  (reduced_motion_amended ⟨true, true⟩ transitionsBase).2.2.2.2.2.2.1 rfl

end DemoUI
